import Mathlib

/-!
# Verification of the img2txt client library

A shallow embedding of `src/index.ts`: a client for the img2txt.io API that
uploads a local image via a pre-signed URL flow and requests text extraction.
The embedding models JavaScript JSON values, `JSON.parse` / `JSON.stringify`,
the axios call outcomes (supplied by an environment of mocked responses), and
the three-phase orchestration in `process`, recording every outbound request
and the fixed delay in an event trace.
-/

namespace Img2Txt

/-- JavaScript JSON values.  Numbers are kept as a scaled decimal
`m * 10 ^ e` (mantissa and exponent), which is exact for every literal the
client ever handles. -/
inductive Json where
  | null : Json
  | bool (b : Bool) : Json
  | num (m : Int) (e : Int) : Json
  | str (s : String) : Json
  | arr (elems : List Json) : Json
  | obj (fields : List (String × Json)) : Json

/-- Property access `j.k` on a JavaScript value: `some v` when `j` is an
object with field `k`, otherwise `none` (JS `undefined`). -/
def Json.get? : Json → String → Option Json
  | .obj fields, k => fields.lookup k
  | _, _ => none

/-- JavaScript truthiness of a possibly-undefined value: `undefined`, `null`,
`false`, `0` and `""` are falsy; everything else is truthy. -/
def jsTruthy : Option Json → Bool
  | none => false
  | some .null => false
  | some (.bool b) => b
  | some (.num m _) => m != 0
  | some (.str s) => s != ""
  | some (.arr _) => true
  | some (.obj _) => true

/-- The JavaScript check of typeof v being the string type. -/
def jsTypeofIsString : Option Json → Bool
  | some (.str _) => true
  | _ => false

/-- Extract the underlying string of a JS value known to be a string
(used only after a `typeof` guard). -/
def jsAsString : Option Json → String
  | some (.str s) => s
  | _ => ""

/-! ## JSON.parse -/

/-- JSON whitespace characters. -/
def isJsonWs (c : Char) : Bool :=
  c = ' ' || c = '\t' || c = '\n' || c = '\r'

/-- Drop leading JSON whitespace. -/
def skipWs : List Char → List Char
  | [] => []
  | c :: cs => if isJsonWs c then skipWs cs else c :: cs

/-- Value of a hex digit, if any. -/
def hexVal (c : Char) : Option Nat :=
  if '0' ≤ c ∧ c ≤ '9' then some (c.toNat - '0'.toNat)
  else if 'a' ≤ c ∧ c ≤ 'f' then some (c.toNat - 'a'.toNat + 10)
  else if 'A' ≤ c ∧ c ≤ 'F' then some (c.toNat - 'A'.toNat + 10)
  else none

/-- Parse the body of a JSON string literal (the opening quote already
consumed), returning the decoded string and the rest of the input. -/
def parseStringBody : List Char → Option (String × List Char)
  | [] => none
  | '"' :: cs => some ("", cs)
  | '\\' :: cs =>
    match cs with
    | '"' :: rest => (parseStringBody rest).map (fun p => (⟨'"' :: p.1.toList⟩, p.2))
    | '\\' :: rest => (parseStringBody rest).map (fun p => (⟨'\\' :: p.1.toList⟩, p.2))
    | '/' :: rest => (parseStringBody rest).map (fun p => (⟨'/' :: p.1.toList⟩, p.2))
    | 'b' :: rest => (parseStringBody rest).map (fun p => (⟨'\x08' :: p.1.toList⟩, p.2))
    | 'f' :: rest => (parseStringBody rest).map (fun p => (⟨'\x0c' :: p.1.toList⟩, p.2))
    | 'n' :: rest => (parseStringBody rest).map (fun p => (⟨'\n' :: p.1.toList⟩, p.2))
    | 'r' :: rest => (parseStringBody rest).map (fun p => (⟨'\r' :: p.1.toList⟩, p.2))
    | 't' :: rest => (parseStringBody rest).map (fun p => (⟨'\t' :: p.1.toList⟩, p.2))
    | 'u' :: h1 :: h2 :: h3 :: h4 :: rest =>
      match hexVal h1, hexVal h2, hexVal h3, hexVal h4 with
      | some a, some b, some c, some d =>
        let code := ((a * 16 + b) * 16 + c) * 16 + d
        (parseStringBody rest).map
          (fun p => (⟨Char.ofNat code :: p.1.toList⟩, p.2))
      | _, _, _, _ => none
    | _ => none
  | c :: cs =>
    if c.toNat < 0x20 then none
    else (parseStringBody cs).map (fun p => (⟨c :: p.1.toList⟩, p.2))

/-- Take a maximal run of decimal digits. -/
def takeDigits : List Char → List Char × List Char
  | [] => ([], [])
  | c :: cs =>
    if '0' ≤ c ∧ c ≤ '9' then
      let (ds, rest) := takeDigits cs
      (c :: ds, rest)
    else ([], c :: cs)

/-- Numeric value of a digit run. -/
def digitsToNat (ds : List Char) : Nat :=
  ds.foldl (fun acc c => acc * 10 + (c.toNat - '0'.toNat)) 0

/-- Normalise a scaled decimal the way JavaScript prints floats: drop
trailing fractional zeros, and collapse a zero mantissa. -/
def normNum (fuel : Nat) (m e : Int) : Int × Int :=
  match fuel with
  | 0 => (m, e)
  | f + 1 =>
    if m = 0 then (0, 0)
    else if e < 0 ∧ m % 10 = 0 then normNum f (m / 10) (e + 1)
    else (m, e)

/-- Parse a JSON number literal (leading `-` allowed, no leading zeros,
optional fraction and exponent). -/
def parseNumber (cs : List Char) : Option (Json × List Char) :=
  let (neg, cs1) := match cs with
    | '-' :: rest => (true, rest)
    | _ => (false, cs)
  let (intDs, cs2) := takeDigits cs1
  match intDs with
  | [] => none
  | d0 :: drest =>
    if d0 = '0' ∧ drest ≠ [] then none
    else
      let m0 : Nat := digitsToNat intDs
      let (m1, e1, cs3) : Nat × Int × List Char :=
        match cs2 with
        | '.' :: afterDot =>
          let (fracDs, rest) := takeDigits afterDot
          if fracDs = [] then (m0, 0, '.' :: afterDot)
          else (m0 * 10 ^ fracDs.length + digitsToNat fracDs,
                -(fracDs.length : Int), rest)
        | _ => (m0, 0, cs2)
      match cs3 with
      | '.' :: _ => none
      | c :: afterE =>
        if c = 'e' ∨ c = 'E' then
          let (esign, cs4) : Bool × List Char := match afterE with
            | '+' :: r => (false, r)
            | '-' :: r => (true, r)
            | r => (false, r)
          let (expDs, cs5) := takeDigits cs4
          if expDs = [] then none
          else
            let ev : Int := if esign then -(digitsToNat expDs : Int)
                            else (digitsToNat expDs : Int)
            let mz : Int := if neg then -(m1 : Int) else (m1 : Int)
            let (mn, en) := normNum m1.succ mz (e1 + ev)
            some (.num mn en, cs5)
        else
          let mz : Int := if neg then -(m1 : Int) else (m1 : Int)
          let (mn, en) := normNum m1.succ mz e1
          some (.num mn en, c :: afterE)
      | [] =>
        let mz : Int := if neg then -(m1 : Int) else (m1 : Int)
        let (mn, en) := normNum m1.succ mz e1
        some (.num mn en, [])

/-- Merge duplicate object keys the way `JSON.parse` does: the first
occurrence keeps its position, the last occurrence supplies the value.
Fuel-bounded (any fuel at least the list length is enough). -/
def dedupKeys : Nat → List (String × Json) → List (String × Json)
  | 0, l => l
  | _, [] => []
  | fuel + 1, (k, v) :: rest =>
    let v' := (rest.reverse.lookup k).getD v
    (k, v') :: dedupKeys fuel (rest.filter (fun p => p.1 ≠ k))

mutual

/-- Parse one JSON value (fuel-bounded recursion; the top-level entry point
supplies ample fuel). -/
def parseValue : Nat → List Char → Option (Json × List Char)
  | 0, _ => none
  | f + 1, cs =>
    match skipWs cs with
    | 'n' :: 'u' :: 'l' :: 'l' :: rest => some (.null, rest)
    | 't' :: 'r' :: 'u' :: 'e' :: rest => some (.bool true, rest)
    | 'f' :: 'a' :: 'l' :: 's' :: 'e' :: rest => some (.bool false, rest)
    | '"' :: rest => (parseStringBody rest).map (fun p => (.str p.1, p.2))
    | '[' :: rest =>
      (match skipWs rest with
       | ']' :: r2 => some (.arr [], r2)
       | r2 => (parseElems f r2).map (fun p => (.arr p.1, p.2)))
    | '\x7b' :: rest =>
      (match skipWs rest with
       | '\x7d' :: r2 => some (.obj [], r2)
       | r2 => (parseMembers f r2).map (fun p => (.obj (dedupKeys p.1.length p.1), p.2)))
    | other => parseNumber other

/-- Parse the elements of a non-empty JSON array, up to and including the
closing bracket. -/
def parseElems : Nat → List Char → Option (List Json × List Char)
  | 0, _ => none
  | f + 1, cs =>
    match parseValue f cs with
    | none => none
    | some (v, r) =>
      match skipWs r with
      | ',' :: r2 => (parseElems f r2).map (fun p => (v :: p.1, p.2))
      | ']' :: r2 => some ([v], r2)
      | _ => none

/-- Parse the members of a non-empty JSON object, up to and including the
closing brace. -/
def parseMembers : Nat → List Char → Option (List (String × Json) × List Char)
  | 0, _ => none
  | f + 1, cs =>
    match skipWs cs with
    | '"' :: rest =>
      match parseStringBody rest with
      | none => none
      | some (k, r) =>
        match skipWs r with
        | ':' :: r2 =>
          match parseValue f r2 with
          | none => none
          | some (v, r3) =>
            match skipWs r3 with
            | ',' :: r4 => (parseMembers f r4).map (fun p => ((k, v) :: p.1, p.2))
            | '\x7d' :: r4 => some ([(k, v)], r4)
            | _ => none
        | _ => none
    | _ => none

end

/-- Model of `JSON.parse`: `some` on syntactically valid JSON input, `none` where the
JavaScript builtin would throw a `SyntaxError`. -/
def jsonParse (s : String) : Option Json :=
  let cs := s.toList
  match parseValue (2 * cs.length + 4) cs with
  | some (v, rest) => if skipWs rest = [] then some v else none
  | none => none

/-! ## JSON.stringify -/

/-- Hex digit characters. -/
def hexDigit (n : Nat) : Char :=
  if n < 10 then Char.ofNat ('0'.toNat + n)
  else Char.ofNat ('a'.toNat + (n - 10))

/-- Escape a single character as it appears inside a `JSON.stringify`
string literal. -/
def escChar (c : Char) : String :=
  if c = '"' then "\\\""
  else if c = '\\' then "\\\\"
  else if c = '\x08' then "\\b"
  else if c = '\x0c' then "\\f"
  else if c = '\n' then "\\n"
  else if c = '\r' then "\\r"
  else if c = '\t' then "\\t"
  else if c.toNat < 0x20 then
    "\\u00" ++ String.mk [hexDigit (c.toNat / 16), hexDigit (c.toNat % 16)]
  else String.mk [c]

/-- Quote and escape a string as `JSON.stringify` does. -/
def quoteStr (s : String) : String :=
  "\"" ++ String.join (s.toList.map escChar) ++ "\""

/-- Print a normalised scaled decimal the way JavaScript prints the float:
an integer when the exponent is non-negative, otherwise a decimal point. -/
def numToString (m e : Int) : String :=
  if e ≥ 0 then toString (m * 10 ^ e.toNat)
  else
    let digits := toString m.natAbs
    let k := e.natAbs
    let sign := if m < 0 then "-" else ""
    if digits.length > k then
      sign ++ (digits.take (digits.length - k)) ++ "." ++ (digits.takeRight k)
    else
      sign ++ "0." ++ (String.mk (List.replicate (k - digits.length) '0')) ++ digits

mutual

/-- Model of `JSON.stringify` (compact form, no indent argument), as the client calls
it. -/
def jsonStringify : Json → String
  | .null => "null"
  | .bool true => "true"
  | .bool false => "false"
  | .num m e => numToString m e
  | .str s => quoteStr s
  | .arr elems => "[" ++ stringifyElems elems ++ "]"
  | .obj fields => "\x7b" ++ stringifyMembers fields ++ "\x7d"

/-- Comma-separated serialisation of array elements. -/
def stringifyElems : List Json → String
  | [] => ""
  | [v] => jsonStringify v
  | v :: rest => jsonStringify v ++ "," ++ stringifyElems rest

/-- Comma-separated serialisation of object members. -/
def stringifyMembers : List (String × Json) → String
  | [] => ""
  | [(k, v)] => quoteStr k ++ ":" ++ jsonStringify v
  | (k, v) :: rest => quoteStr k ++ ":" ++ jsonStringify v ++ "," ++ stringifyMembers rest

end

/-! ## The client and its environment

The network and filesystem are modelled by an `Env` of mocked outcomes, one
per phase, mirroring a mock transport in a test harness.  Every function
returns its `Except` result paired with the list of events (outbound
requests and the fixed delay) it caused, in order. -/

/-- Outcome of a single axios call, as seen by the `await`: a resolved 2xx
response with a parsed JSON body, a rejected promise for a non-2xx response
(carrying `error.response` data and `error.message`), or a rejected promise
with no response (transport failure: DNS, timeout, connection reset). -/
inductive AxiosOutcome where
  | success (status : Nat) (data : Json) : AxiosOutcome
  | httpFailure (status : Nat) (body : Json) (msg : String) : AxiosOutcome
  | transportFailure (msg : String) : AxiosOutcome

/-- An outbound HTTP request, recorded with everything the client put in
it.  The PUT target URL is kept as the raw JSON value taken from the
phase-one response. -/
inductive Request where
  | httpGet (url : String) (headers : List (String × String)) : Request
  | httpPut (url : Json) (headers : List (String × String)) (formFileName : String) : Request
  | httpPost (url : String) (headers : List (String × String))
      (payload : List (String × Json)) : Request

/-- Observable events of one `process` call: outbound requests and the
`setTimeout` sleep. -/
inductive Event where
  | req (r : Request) : Event
  | sleep (ms : Nat) : Event

/-- Headers of a recorded request. -/
def Request.headers : Request → List (String × String)
  | .httpGet _ h => h
  | .httpPut _ h _ => h
  | .httpPost _ h _ => h

/-- Whether an event is an outbound network request. -/
def Event.isRequest : Event → Bool
  | .req _ => true
  | .sleep _ => false

/-- Whether an event is the phase-one GET (upload-url request). -/
def Event.isGet : Event → Bool
  | .req (.httpGet _ _) => true
  | _ => false

/-- Whether an event is the phase-two PUT (storage upload). -/
def Event.isPut : Event → Bool
  | .req (.httpPut _ _ _) => true
  | _ => false

/-- Whether an event is the phase-three POST (extraction call). -/
def Event.isPost : Event → Bool
  | .req (.httpPost _ _ _) => true
  | _ => false

/-- Mocked environment for one `process` invocation: the filesystem facts
about the input path and the outcome of each of the three phase calls. -/
structure Env where
  fileExists : Bool
  isFile : Bool
  fileSize : Nat
  uploadUrlResp : AxiosOutcome
  uploadResp : AxiosOutcome
  extractResp : AxiosOutcome

/-- Rendering of `error.message || error` in a template: an `Error` with an empty message
renders as `"Error"`. -/
def errMsgOr (msg : String) : String :=
  if msg = "" then "Error" else msg

/-- Node `path.basename` (posix): the last non-empty path component. -/
def basename (p : String) : String :=
  match ((p.splitOn "/").filter (fun s => s ≠ "")).getLast? with
  | some s => s
  | none => if p.startsWith "/" then "/" else p

/-- Characters `encodeURIComponent` leaves unescaped. -/
def isUriUnreserved (c : Char) : Bool :=
  ('A' ≤ c ∧ c ≤ 'Z') || ('a' ≤ c ∧ c ≤ 'z') || ('0' ≤ c ∧ c ≤ '9') ||
    c = '-' || c = '_' || c = '.' || c = '!' || c = '~' || c = '*' ||
    c = '\'' || c = '(' || c = ')'

/-- Two-digit uppercase hex of a byte. -/
def hexByte (b : UInt8) : String :=
  let hi := b.toNat / 16
  let lo := b.toNat % 16
  let d := fun n => if n < 10 then Char.ofNat ('0'.toNat + n)
                    else Char.ofNat ('A'.toNat + (n - 10))
  String.mk [d hi, d lo]

/-- JavaScript `encodeURIComponent`: percent-encode the UTF-8 bytes of every
character outside the unreserved set. -/
def encodeURIComponent (s : String) : String :=
  String.join (s.toList.map (fun c =>
    if isUriUnreserved c then String.mk [c]
    else String.join ((String.mk [c]).toUTF8.toList.map (fun b => "%" ++ hexByte b))))

/-- The fixed API base URL. -/
def baseUrl : String := "https://img2txt.io/api/"

/-- The client: after construction it holds only the immutable authorization
header value. -/
structure Img2TxtClient where
  authHeader : String

/-- The constructor of `Img2TxtClient`.  The credential argument is a raw
JavaScript value (`none` models `undefined`), checked with
the disjunction of falsiness and a failed string typeof test. -/
def mkClient (apiKey : Option Json) : Except String Img2TxtClient :=
  if !(jsTruthy apiKey) || !(jsTypeofIsString apiKey) then
    .error "API Key is required and must be a string."
  else
    .ok ⟨"Bearer " ++ jsAsString apiKey⟩

/-- The private method `getUploadUrl`: GET the pre-signed upload destination; reject responses
whose body lacks a truthy `url` or `key`; wrap every failure with
step context. -/
def getUploadUrl (c : Img2TxtClient) (env : Env) (filePath : String) :
    Except String Json × List Event :=
  let fileName := basename filePath
  let fileSize := env.fileSize
  let url := baseUrl ++ "get-upload-url?name=" ++ encodeURIComponent fileName ++
    "&size=" ++ toString fileSize
  let ev := Event.req (.httpGet url [("Authorization", c.authHeader)])
  match env.uploadUrlResp with
  | .success status data =>
    if !(jsTruthy (data.get? "url")) || !(jsTruthy (data.get? "key")) then
      (.error ("Failed to get upload URL: Invalid upload-url response: Missing URL or Key. Status: "
        ++ toString status), [ev])
    else
      (.ok data, [ev])
  | .httpFailure _ _ msg =>
    (.error ("Failed to get upload URL: " ++ errMsgOr msg), [ev])
  | .transportFailure msg =>
    (.error ("Failed to get upload URL: " ++ errMsgOr msg), [ev])

/-- The private method `uploadFile`: PUT the file as a multipart form to the pre-signed URL;
reject responses whose body lacks a truthy `ufsUrl`; wrap every failure
with step context. -/
def uploadFile (c : Img2TxtClient) (env : Env) (uploadUrl : Json) (filePath : String) :
    Except String Json × List Event :=
  let fileName := basename filePath
  let hdrs := [("Authorization", c.authHeader),
               ("Content-Type", "multipart/form-data")]
  let ev := Event.req (.httpPut uploadUrl hdrs fileName)
  match env.uploadResp with
  | .success status data =>
    if !(jsTruthy (data.get? "ufsUrl")) then
      (.error ("Failed to upload file: Invalid upload response: Missing UFS URL. Status: "
        ++ toString status), [ev])
    else
      (.ok ((data.get? "ufsUrl").getD .null), [ev])
  | .httpFailure _ _ msg =>
    (.error ("Failed to upload file: " ++ errMsgOr msg), [ev])
  | .transportFailure msg =>
    (.error ("Failed to upload file: " ++ errMsgOr msg), [ev])

/-- The message of the `SyntaxError` thrown by the host `JSON.parse` on
invalid input.  The exact wording is engine-specific; it is abstracted here
as a fixed string, interpolated into the wrapper message of the client. -/
def jsonSyntaxErrorMessage : String := "Unexpected token in JSON"

/-- The payload construction at the top of `imageToText`: `imageUrl` and
`outputType` always present, `description` only when non-empty, and a
non-empty `outputStructure` parsed and re-serialised compactly — throwing
before any network use when it is not valid JSON. -/
def buildPayload (imageUrl : Json) (outputType description outputStructure : String) :
    Except String (List (String × Json)) :=
  let payload := [("imageUrl", imageUrl), ("outputType", Json.str outputType)]
  let payload := if description != "" then
    payload ++ [("description", Json.str description)] else payload
  if outputStructure != "" then
    match jsonParse outputStructure with
    | some parsed =>
      .ok (payload ++ [("outputStructure", Json.str (jsonStringify parsed))])
    | none =>
      .error ("outputStructure must be valid JSON: " ++ jsonSyntaxErrorMessage)
  else
    .ok payload

/-- The check `data.success === false`: only the literal boolean `false` matches. -/
def isLiteralFalse : Option Json → Bool
  | some (.bool false) => true
  | _ => false

/-- Evaluation of `data.data || data.text || data`: the diagnostic payload reported on an
explicit application-level failure. -/
def diagPayload (data : Json) : Json :=
  if jsTruthy (data.get? "data") then (data.get? "data").getD .null
  else if jsTruthy (data.get? "text") then (data.get? "text").getD .null
  else data

/-- The private method `imageToText`: validate and build the JSON payload, POST it, treat an
explicit `success: false` body as a failure carrying the returned
diagnostic payload, and wrap axios failures with status/body context. -/
def imageToText (c : Img2TxtClient) (env : Env) (imageUrl : Json)
    (outputType description outputStructure : String) :
    Except String Json × List Event :=
  let url := baseUrl ++ "image-to-text"
  match buildPayload imageUrl outputType description outputStructure with
  | .error e => (.error e, [])
  | .ok payload =>
    let hdrs := [("Authorization", c.authHeader),
                 ("Content-Type", "application/json")]
    let ev := Event.req (.httpPost url hdrs payload)
    match env.extractResp with
    | .success _ data =>
      if isLiteralFalse (data.get? "success") then
        (.error ("Failed to process image: Processing failed: " ++
          jsonStringify (diagPayload data)), [ev])
      else
        (.ok data, [ev])
    | .httpFailure status body _ =>
      (.error ("API call failed: " ++ toString status ++ " - " ++ jsonStringify body),
        [ev])
    | .transportFailure msg =>
      (.error ("Failed to process image: " ++ errMsgOr msg), [ev])

/-- The public entry point `process`.  Checks the file precondition, then
runs the three phases in sequence with a fixed 200 ms sleep before the
extraction call.  The two awaited phases (upload-URL and upload) have their
failures caught and re-wrapped with the top-level context; the `imageToText`
promise is returned directly — without `await` — so a rejection of it is not
caught by the surrounding try/catch and surfaces to the caller unwrapped. -/
def process (c : Img2TxtClient) (env : Env) (imagePath : String)
    (outputType description outputStructure : String) :
    Except String Json × List Event :=
  if !env.fileExists || !env.isFile then
    (.error ("File not found or is not a file: " ++ imagePath), [])
  else
    match getUploadUrl c env imagePath with
    | (.error e, t1) => (.error ("Image processing failed: " ++ e), t1)
    | (.ok uploadInfo, t1) =>
      match uploadFile c env ((uploadInfo.get? "url").getD .null) imagePath with
      | (.error e, t2) => (.error ("Image processing failed: " ++ e), t1 ++ t2)
      | (.ok ufsUrl, t2) =>
        let t3 := [Event.sleep 200]
        match imageToText c env ufsUrl outputType description outputStructure with
        | (r, t4) => (r, t1 ++ t2 ++ t3 ++ t4)


/-! ## Characterisation lemmas

Small equations describing the result of each function under a given mocked
outcome, used to drive the claim proofs. -/

/-- The full URL of the phase-one GET request. -/
def uploadUrlRequestUrl (env : Env) (p : String) : String :=
  baseUrl ++ "get-upload-url?name=" ++ encodeURIComponent (basename p) ++
    "&size=" ++ toString env.fileSize

/-- The event recorded for the phase-one GET request. -/
def getEvent (c : Img2TxtClient) (env : Env) (p : String) : Event :=
  .req (.httpGet (uploadUrlRequestUrl env p) [("Authorization", c.authHeader)])

/-- The event recorded for the phase-two PUT request. -/
def putEvent (c : Img2TxtClient) (u : Json) (p : String) : Event :=
  .req (.httpPut u
    [("Authorization", c.authHeader), ("Content-Type", "multipart/form-data")]
    (basename p))

/-- The event recorded for the phase-three POST request. -/
def postEvent (c : Img2TxtClient) (payload : List (String × Json)) : Event :=
  .req (.httpPost (baseUrl ++ "image-to-text")
    [("Authorization", c.authHeader), ("Content-Type", "application/json")]
    payload)

theorem getUploadUrl_success (c : Img2TxtClient) (env : Env) (p : String)
    (st : Nat) (data : Json) (h : env.uploadUrlResp = .success st data)
    (hu : jsTruthy (data.get? "url") = true)
    (hk : jsTruthy (data.get? "key") = true) :
    getUploadUrl c env p = (.ok data, [getEvent c env p]) := by
  simp [getUploadUrl, h, hu, hk, getEvent, uploadUrlRequestUrl]

theorem getUploadUrl_missing_field (c : Img2TxtClient) (env : Env) (p : String)
    (st : Nat) (data : Json) (h : env.uploadUrlResp = .success st data)
    (hbad : jsTruthy (data.get? "url") = false ∨ jsTruthy (data.get? "key") = false) :
    getUploadUrl c env p =
      (.error ("Failed to get upload URL: Invalid upload-url response: Missing URL or Key. Status: "
        ++ toString st), [getEvent c env p]) := by
  rcases hbad with hbad | hbad <;>
    simp [getUploadUrl, h, hbad, getEvent, uploadUrlRequestUrl]

theorem uploadFile_success (c : Img2TxtClient) (env : Env) (u : Json) (p : String)
    (st : Nat) (data : Json) (h : env.uploadResp = .success st data)
    (hufs : jsTruthy (data.get? "ufsUrl") = true) :
    uploadFile c env u p = (.ok ((data.get? "ufsUrl").getD .null), [putEvent c u p]) := by
  simp [uploadFile, h, hufs, putEvent]

theorem uploadFile_missing_field (c : Img2TxtClient) (env : Env) (u : Json) (p : String)
    (st : Nat) (data : Json) (h : env.uploadResp = .success st data)
    (hbad : jsTruthy (data.get? "ufsUrl") = false) :
    uploadFile c env u p =
      (.error ("Failed to upload file: Invalid upload response: Missing UFS URL. Status: "
        ++ toString st), [putEvent c u p]) := by
  simp [uploadFile, h, hbad, putEvent]

theorem imageToText_payload_error (c : Img2TxtClient) (env : Env) (u : Json)
    (ot d os : String) (e : String) (hb : buildPayload u ot d os = .error e) :
    imageToText c env u ot d os = (.error e, []) := by
  simp [imageToText, hb]

theorem imageToText_success (c : Img2TxtClient) (env : Env) (u : Json)
    (ot d os : String) (payload : List (String × Json))
    (hb : buildPayload u ot d os = .ok payload)
    (st : Nat) (data : Json) (h : env.extractResp = .success st data)
    (hns : isLiteralFalse (data.get? "success") = false) :
    imageToText c env u ot d os = (.ok data, [postEvent c payload]) := by
  simp [imageToText, hb, h, hns, postEvent]

theorem imageToText_success_false (c : Img2TxtClient) (env : Env) (u : Json)
    (ot d os : String) (payload : List (String × Json))
    (hb : buildPayload u ot d os = .ok payload)
    (st : Nat) (data : Json) (h : env.extractResp = .success st data)
    (hlf : isLiteralFalse (data.get? "success") = true) :
    imageToText c env u ot d os =
      (.error ("Failed to process image: Processing failed: " ++
        jsonStringify (diagPayload data)), [postEvent c payload]) := by
  simp [imageToText, hb, h, hlf, postEvent]

theorem process_file_error (c : Img2TxtClient) (env : Env) (p ot d os : String)
    (hfile : (!env.fileExists || !env.isFile) = true) :
    process c env p ot d os =
      (.error ("File not found or is not a file: " ++ p), []) := by
  simp [process, hfile]

theorem process_phase1_error (c : Img2TxtClient) (env : Env) (p ot d os : String)
    (e1 : String) (t1 : List Event)
    (hfile : (!env.fileExists || !env.isFile) = false)
    (hG : getUploadUrl c env p = (.error e1, t1)) :
    process c env p ot d os = (.error ("Image processing failed: " ++ e1), t1) := by
  simp [process, hfile, hG]

theorem process_phase2_error (c : Img2TxtClient) (env : Env) (p ot d os : String)
    (info : Json) (e2 : String) (t1 t2 : List Event)
    (hfile : (!env.fileExists || !env.isFile) = false)
    (hG : getUploadUrl c env p = (.ok info, t1))
    (hU : uploadFile c env ((info.get? "url").getD .null) p = (.error e2, t2)) :
    process c env p ot d os =
      (.error ("Image processing failed: " ++ e2), t1 ++ t2) := by
  simp [process, hfile, hG, hU]

theorem process_phase3 (c : Img2TxtClient) (env : Env) (p ot d os : String)
    (info ufs : Json) (r3 : Except String Json) (t1 t2 t4 : List Event)
    (hfile : (!env.fileExists || !env.isFile) = false)
    (hG : getUploadUrl c env p = (.ok info, t1))
    (hU : uploadFile c env ((info.get? "url").getD .null) p = (.ok ufs, t2))
    (hI : imageToText c env ufs ot d os = (r3, t4)) :
    process c env p ot d os = (r3, t1 ++ t2 ++ [Event.sleep 200] ++ t4) := by
  simp [process, hfile, hG, hU, hI]

/-! ## Trace and error-shape lemmas -/

theorem getUploadUrl_trace (c : Img2TxtClient) (env : Env) (p : String) :
    ∃ url, (getUploadUrl c env p).2 =
      [Event.req (.httpGet url [("Authorization", c.authHeader)])] := by
  cases hr : env.uploadUrlResp <;> simp [getUploadUrl, hr] <;> split_ifs <;> simp

theorem getUploadUrl_fst_error (c : Img2TxtClient) (env : Env) (p : String) (e : String)
    (h : (getUploadUrl c env p).1 = .error e) :
    ∃ rest, e = "Failed to get upload URL: " ++ rest := by
  cases hr : env.uploadUrlResp <;> simp [getUploadUrl, hr] at h <;>
    first
      | exact ⟨_, h.symm⟩
      | (rcases h with ⟨h1, h2⟩; exact ⟨_, h2.symm⟩)
      | skip
  split_ifs at h <;> simp_all
  exact ⟨_, h.symm⟩

theorem uploadFile_trace (c : Img2TxtClient) (env : Env) (u : Json) (p : String) :
    (uploadFile c env u p).2 = [putEvent c u p] := by
  cases hr : env.uploadResp <;> simp [uploadFile, hr, putEvent] <;> split_ifs <;> simp

theorem uploadFile_fst_error (c : Img2TxtClient) (env : Env) (u : Json) (p : String)
    (e : String) (h : (uploadFile c env u p).1 = .error e) :
    ∃ rest, e = "Failed to upload file: " ++ rest := by
  cases hr : env.uploadResp <;> simp [uploadFile, hr] at h <;>
    first
      | exact ⟨_, h.symm⟩
      | (rcases h with ⟨h1, h2⟩; exact ⟨_, h2.symm⟩)
      | skip
  split_ifs at h <;> simp_all
  exact ⟨_, h.symm⟩

theorem imageToText_trace (c : Img2TxtClient) (env : Env) (u : Json)
    (ot d os : String) :
    (imageToText c env u ot d os).2 = [] ∨
    ∃ payload, (imageToText c env u ot d os).2 = [postEvent c payload] := by
  cases hb : buildPayload u ot d os <;>
    cases hr : env.extractResp <;>
    simp [imageToText, hb, hr, postEvent] <;> split_ifs <;> simp

theorem buildPayload_error_msg (u : Json) (ot d os : String) (e : String)
    (h : buildPayload u ot d os = .error e) :
    e = "outputStructure must be valid JSON: " ++ jsonSyntaxErrorMessage := by
  simp only [buildPayload] at h
  cases hjp : jsonParse os <;> rw [hjp] at h <;> split_ifs at h <;> simp_all

theorem imageToText_fst_error (c : Img2TxtClient) (env : Env) (u : Json)
    (ot d os : String) (e : String)
    (h : (imageToText c env u ot d os).1 = .error e) :
    ∃ rest,
      e = "Failed to process image: " ++ rest ∨
      e = "API call failed: " ++ rest ∨
      e = "outputStructure must be valid JSON: " ++ rest := by
  cases hb : buildPayload u ot d os with
  | error e2 =>
    simp [imageToText, hb] at h
    subst h
    exact ⟨jsonSyntaxErrorMessage, Or.inr (Or.inr (buildPayload_error_msg u ot d os e2 hb))⟩
  | ok payload =>
    cases hr : env.extractResp with
    | success st data =>
      simp only [imageToText, hb, hr] at h
      split_ifs at h with hlf <;> simp at h
      have hsplit : ("Failed to process image: Processing failed: " : String) =
          "Failed to process image: " ++ "Processing failed: " := rfl
      refine ⟨"Processing failed: " ++ jsonStringify (diagPayload data), Or.inl ?_⟩
      rw [← h, hsplit, String.append_assoc]
    | httpFailure st body msg =>
      simp [imageToText, hb, hr] at h
      refine ⟨toString st ++ (" - " ++ jsonStringify body), Or.inr (Or.inl ?_)⟩
      rw [← h]
      simp [String.append_assoc]
    | transportFailure msg =>
      simp [imageToText, hb, hr] at h
      exact ⟨_, Or.inl h.symm⟩

/-- The step-level wrapper shapes of the two awaited phases: the message
opens with the context string added inside the phase that caught the
failure. -/
def StepWrapped12 (inner : String) : Prop :=
  ∃ rest,
    inner = "Failed to get upload URL: " ++ rest ∨
    inner = "Failed to upload file: " ++ rest

/-- The step-level wrapper shapes of the extraction phase: one of the three
context strings added inside `imageToText`. -/
def StepWrapped3 (e : String) : Prop :=
  ∃ rest,
    e = "Failed to process image: " ++ rest ∨
    e = "API call failed: " ++ rest ∨
    e = "outputStructure must be valid JSON: " ++ rest

/-- Global invariants of `process`: each phase issues at most one request
(no retries), every request carries the authorization header, and every
failure past the file check is step-wrapped — with the top-level context
added on top for the two awaited phases, and without it for extraction
failures, whose promise is returned un-awaited. -/
theorem process_invariants (c : Img2TxtClient) (env : Env) (p ot d os : String) :
    (((process c env p ot d os).2.filter Event.isGet).length ≤ 1 ∧
     ((process c env p ot d os).2.filter Event.isPut).length ≤ 1 ∧
     ((process c env p ot d os).2.filter Event.isPost).length ≤ 1) ∧
    (∀ ev ∈ (process c env p ot d os).2, ∀ r, ev = .req r →
      ("Authorization", c.authHeader) ∈ r.headers) ∧
    (env.fileExists = true → env.isFile = true →
      ∀ e, (process c env p ot d os).1 = .error e →
        (∃ inner, e = "Image processing failed: " ++ inner ∧ StepWrapped12 inner) ∨
        StepWrapped3 e) := by
  by_cases hfile : (!env.fileExists || !env.isFile) = true
  · rw [process_file_error c env p ot d os hfile]
    refine ⟨⟨by simp, by simp, by simp⟩, by simp, ?_⟩
    intro hfe hfi e he
    rw [hfe, hfi] at hfile
    simp at hfile
  · have hfile' : (!env.fileExists || !env.isFile) = false :=
      Bool.eq_false_iff.mpr hfile
    obtain ⟨gUrl, hgt⟩ := getUploadUrl_trace c env p
    rcases hG : getUploadUrl c env p with ⟨res1, t1⟩
    have ht1 : t1 = [Event.req (.httpGet gUrl [("Authorization", c.authHeader)])] := by
      rw [hG] at hgt; exact hgt
    cases res1 with
    | error e1 =>
      rw [process_phase1_error c env p ot d os e1 t1 hfile' hG, ht1]
      refine ⟨⟨by simp [Event.isGet, putEvent, postEvent], by simp [Event.isPut, putEvent, postEvent], by simp [Event.isPost, putEvent, postEvent]⟩, ?_, ?_⟩
      · intro ev hev r hr
        subst hr
        simp at hev
        subst hev
        simp [Request.headers]
      · intro hfe hfi e he
        simp only [Except.error.injEq] at he
        obtain ⟨rest, hrest⟩ := getUploadUrl_fst_error c env p e1 (by rw [hG])
        exact Or.inl ⟨e1, he.symm, rest, Or.inl hrest⟩
    | ok uploadInfo =>
      have hut := uploadFile_trace c env ((uploadInfo.get? "url").getD .null) p
      rcases hU : uploadFile c env ((uploadInfo.get? "url").getD .null) p with ⟨res2, t2⟩
      have ht2 : t2 = [putEvent c ((uploadInfo.get? "url").getD .null) p] := by
        rw [hU] at hut; exact hut
      cases res2 with
      | error e2 =>
        rw [process_phase2_error c env p ot d os uploadInfo e2 t1 t2 hfile' hG hU,
          ht1, ht2]
        refine ⟨⟨by simp [Event.isGet, putEvent, postEvent], by simp [Event.isPut, putEvent, postEvent], by simp [Event.isPost, putEvent, postEvent]⟩, ?_, ?_⟩
        · intro ev hev r hr
          subst hr
          simp [putEvent] at hev
          rcases hev with hev | hev <;> subst hev <;> simp [Request.headers]
        · intro hfe hfi e he
          simp only [Except.error.injEq] at he
          obtain ⟨rest, hrest⟩ := uploadFile_fst_error c env _ p e2 (by rw [hU])
          exact Or.inl ⟨e2, he.symm, rest, Or.inr hrest⟩
      | ok ufsUrl =>
        have hit := imageToText_trace c env ufsUrl ot d os
        rcases hI : imageToText c env ufsUrl ot d os with ⟨res3, t4⟩
        rw [hI] at hit
        have ht4 : t4 = [] ∨ ∃ payload, t4 = [postEvent c payload] := hit
        rw [process_phase3 c env p ot d os uploadInfo ufsUrl res3 t1 t2 t4
          hfile' hG hU hI, ht1, ht2]
        have hshape : env.fileExists = true → env.isFile = true →
            ∀ e, res3 = .error e →
              (∃ inner, e = "Image processing failed: " ++ inner ∧ StepWrapped12 inner) ∨
              StepWrapped3 e := by
          intro hfe hfi e he
          subst he
          obtain ⟨rest3, hrest3⟩ := imageToText_fst_error c env ufsUrl ot d os e (by rw [hI])
          exact Or.inr ⟨rest3, hrest3⟩
        rcases ht4 with ht4 | ⟨payload, ht4⟩ <;> rw [ht4]
        · refine ⟨⟨by simp [Event.isGet, putEvent, postEvent], by simp [Event.isPut, putEvent, postEvent], by simp [Event.isPost, putEvent, postEvent]⟩, ?_, hshape⟩
          intro ev hev r hr
          subst hr
          simp [putEvent] at hev
          rcases hev with hev | hev <;> subst hev <;> simp [Request.headers]
        · refine ⟨⟨by simp [Event.isGet, putEvent, postEvent], by simp [Event.isPut, putEvent, postEvent], by simp [Event.isPost, putEvent, postEvent]⟩, ?_, hshape⟩
          intro ev hev r hr
          subst hr
          simp [putEvent, postEvent] at hev
          rcases hev with hev | hev | hev <;> subst hev <;> simp [Request.headers]

/-! ## Payload lemmas and sample data -/

theorem jsonParse_empty : jsonParse "" = none := rfl

theorem truthy_some (o : Option Json) (h : jsTruthy o = true) : ∃ v, o = some v := by
  cases o with
  | none => simp [jsTruthy] at h
  | some v => exact ⟨v, rfl⟩

/-- The payload built by `imageToText` when the `outputStructure` argument is
empty or valid JSON: `imageUrl` and `outputType` always present,
`description` present exactly when non-empty, `outputStructure` present
exactly when non-empty, holding the compact re-serialisation. -/
theorem buildPayload_ok (u : Json) (ot d os : String)
    (hos : os = "" ∨ ∃ j, jsonParse os = some j) :
    ∃ payload, buildPayload u ot d os = .ok payload ∧
      payload.lookup "imageUrl" = some u ∧
      payload.lookup "outputType" = some (.str ot) ∧
      (d = "" → payload.lookup "description" = none) ∧
      (d ≠ "" → payload.lookup "description" = some (.str d)) ∧
      (os = "" → payload.lookup "outputStructure" = none) ∧
      (∀ j, jsonParse os = some j →
        payload.lookup "outputStructure" = some (.str (jsonStringify j))) := by
  rcases hos with hos | ⟨j, hjp⟩
  · subst hos
    by_cases hd : d = ""
    · subst hd
      refine ⟨[("imageUrl", u), ("outputType", Json.str ot)], by simp [buildPayload],
        rfl, rfl, fun _ => rfl, fun h => absurd rfl h, fun _ => rfl, ?_⟩
      intro j hj
      rw [jsonParse_empty] at hj
      cases hj
    · have hdb : (d != "") = true := by simp [hd]
      refine ⟨[("imageUrl", u), ("outputType", Json.str ot), ("description", Json.str d)],
        by simp [buildPayload, hdb], rfl, rfl, fun h => absurd h hd, fun _ => rfl,
        fun _ => rfl, ?_⟩
      intro j hj
      rw [jsonParse_empty] at hj
      cases hj
  · have hosne : os ≠ "" := by
      intro h
      rw [h, jsonParse_empty] at hjp
      cases hjp
    have hosb : (os != "") = true := by simp [hosne]
    by_cases hd : d = ""
    · subst hd
      refine ⟨[("imageUrl", u), ("outputType", Json.str ot),
          ("outputStructure", Json.str (jsonStringify j))],
        by simp [buildPayload, hosb, hjp], rfl, rfl, fun _ => rfl,
        fun h => absurd rfl h, fun h => absurd h hosne, ?_⟩
      intro j2 hj2
      have hjj := Option.some.inj (hjp.symm.trans hj2)
      subst hjj
      rfl
    · have hdb : (d != "") = true := by simp [hd]
      refine ⟨[("imageUrl", u), ("outputType", Json.str ot), ("description", Json.str d),
          ("outputStructure", Json.str (jsonStringify j))],
        by simp [buildPayload, hosb, hdb, hjp], rfl, rfl, fun h => absurd h hd,
        fun _ => rfl, fun h => absurd h hosne, ?_⟩
      intro j2 hj2
      have hjj := Option.some.inj (hjp.symm.trans hj2)
      subst hjj
      rfl

/-- When the payload builds successfully, `imageToText` issues exactly one
POST carrying it, whatever the response. -/
theorem imageToText_trace_ok (c : Img2TxtClient) (env : Env) (u : Json)
    (ot d os : String) (payload : List (String × Json))
    (hb : buildPayload u ot d os = .ok payload) :
    (imageToText c env u ot d os).2 = [postEvent c payload] := by
  cases hr : env.extractResp <;> simp [imageToText, hb, hr, postEvent] <;>
    split_ifs <;> simp

/-- Sample client for concrete runs. -/
def sampleClient : Img2TxtClient := ⟨"Bearer test-key"⟩

/-- Sample phase-one response body. -/
def sampleUploadInfo : Json :=
  .obj [("url", .str "https://storage.example/put-here"), ("key", .str "abc123")]

/-- Sample phase-two response body. -/
def sampleUfs : Json := .obj [("ufsUrl", .str "https://ufs.example/f/abc123.png")]

/-- Sample successful extraction response body. -/
def sampleOkBody : Json := .obj [("success", .bool true), ("text", .str "extracted text")]

/-- Environment where all three phases answer with valid responses. -/
def sampleEnvAllOk : Env :=
  ⟨true, true, 2048, .success 200 sampleUploadInfo, .success 200 sampleUfs,
    .success 200 sampleOkBody⟩


/-! ## Claim theorems -/

/-- C4: for every path that does not reference an existing regular file,
`process` fails immediately with a file-not-found error and issues zero
network calls (the event trace is empty). -/
theorem C4_missing_file_no_network (c : Img2TxtClient) (env : Env)
    (p ot d os : String)
    (h : env.fileExists = false ∨ env.isFile = false) :
    process c env p ot d os =
      (.error ("File not found or is not a file: " ++ p), []) := by
  rcases h with h | h <;> exact process_file_error c env p ot d os (by simp [h])

/-- Witness for C4 at a concrete nonexistent path. -/
theorem C4_missing_file_no_network_witness :
    process sampleClient ⟨false, false, 0, .success 200 sampleUploadInfo,
        .success 200 sampleUfs, .success 200 sampleOkBody⟩ "/missing.png" "raw" "" "" =
      (.error ("File not found or is not a file: " ++ "/missing.png"), []) :=
  C4_missing_file_no_network sampleClient _ "/missing.png" "raw" "" "" (Or.inl rfl)

/-- C5: when the upload-URL response lacks the `url` or the `key` field,
`process` fails with an upload-URL error and never issues the PUT. -/
theorem C5_missing_upload_url_fields (c : Img2TxtClient) (env : Env)
    (p ot d os : String) (st1 : Nat) (d1 : Json)
    (hfe : env.fileExists = true) (hfi : env.isFile = true)
    (h1 : env.uploadUrlResp = .success st1 d1)
    (hmiss : d1.get? "url" = none ∨ d1.get? "key" = none) :
    (process c env p ot d os).1 =
      .error ("Image processing failed: Failed to get upload URL: Invalid upload-url response: Missing URL or Key. Status: "
        ++ toString st1) ∧
    ∀ ev ∈ (process c env p ot d os).2, Event.isPut ev = false := by
  have hbad : jsTruthy (d1.get? "url") = false ∨ jsTruthy (d1.get? "key") = false := by
    rcases hmiss with h | h
    · exact Or.inl (by rw [h]; rfl)
    · exact Or.inr (by rw [h]; rfl)
  have hG := getUploadUrl_missing_field c env p st1 d1 h1 hbad
  have hP := process_phase1_error c env p ot d os _ _ (by simp [hfe, hfi]) hG
  rw [hP]
  constructor
  · rw [← String.append_assoc]
    rfl
  · intro ev hev
    simp [getEvent] at hev
    subst hev
    rfl

/-- Witness for C5: a 200 upload-URL response whose body has only `key`. -/
theorem C5_missing_upload_url_fields_witness :
    ((process sampleClient ⟨true, true, 2048,
        .success 200 (.obj [("key", .str "abc123")]), .success 200 sampleUfs,
        .success 200 sampleOkBody⟩ "/tmp/plane.png" "raw" "" "").1 =
      .error ("Image processing failed: Failed to get upload URL: Invalid upload-url response: Missing URL or Key. Status: "
        ++ toString 200) ∧
    ∀ ev ∈ (process sampleClient ⟨true, true, 2048,
        .success 200 (.obj [("key", .str "abc123")]), .success 200 sampleUfs,
        .success 200 sampleOkBody⟩ "/tmp/plane.png" "raw" "" "").2,
      Event.isPut ev = false) :=
  C5_missing_upload_url_fields sampleClient _ "/tmp/plane.png" "raw" "" "" 200
    (.obj [("key", .str "abc123")]) rfl rfl rfl (Or.inl rfl)

/-- C6: when the storage-upload response lacks `ufsUrl`, `process` fails and
never issues the extraction POST. -/
theorem C6_missing_ufs_url (c : Img2TxtClient) (env : Env)
    (p ot d os : String) (st1 st2 : Nat) (d1 d2 : Json)
    (hfe : env.fileExists = true) (hfi : env.isFile = true)
    (h1 : env.uploadUrlResp = .success st1 d1)
    (hu : jsTruthy (d1.get? "url") = true) (hk : jsTruthy (d1.get? "key") = true)
    (h2 : env.uploadResp = .success st2 d2)
    (hmiss : d2.get? "ufsUrl" = none) :
    (process c env p ot d os).1 =
      .error ("Image processing failed: Failed to upload file: Invalid upload response: Missing UFS URL. Status: "
        ++ toString st2) ∧
    ∀ ev ∈ (process c env p ot d os).2, Event.isPost ev = false := by
  have hG := getUploadUrl_success c env p st1 d1 h1 hu hk
  have hU := uploadFile_missing_field c env ((d1.get? "url").getD .null) p st2 d2 h2
    (by rw [hmiss]; rfl)
  have hP := process_phase2_error c env p ot d os d1 _ _ _ (by simp [hfe, hfi]) hG hU
  rw [hP]
  constructor
  · rw [← String.append_assoc]
    rfl
  · intro ev hev
    simp [getEvent, putEvent] at hev
    rcases hev with hev | hev <;> subst hev <;> rfl

/-- Witness for C6: a 200 storage-upload response with an empty body. -/
theorem C6_missing_ufs_url_witness :
    ((process sampleClient ⟨true, true, 2048, .success 200 sampleUploadInfo,
        .success 200 (.obj []), .success 200 sampleOkBody⟩
        "/tmp/plane.png" "raw" "" "").1 =
      .error ("Image processing failed: Failed to upload file: Invalid upload response: Missing UFS URL. Status: "
        ++ toString 200) ∧
    ∀ ev ∈ (process sampleClient ⟨true, true, 2048, .success 200 sampleUploadInfo,
        .success 200 (.obj []), .success 200 sampleOkBody⟩
        "/tmp/plane.png" "raw" "" "").2,
      Event.isPost ev = false) :=
  C6_missing_ufs_url sampleClient _ "/tmp/plane.png" "raw" "" "" 200 200
    sampleUploadInfo (.obj []) rfl rfl rfl rfl rfl rfl rfl

/-- C3 (amended): failures in the two awaited phases (upload-URL GET and
storage PUT) are caught at their step, re-wrapped with a step-identifying
message, and re-wrapped a second time by `process` with the top-level
context; extraction-phase failures are caught and re-wrapped at their step
only, surfacing without the top-level wrap because the extraction promise
is returned without await.  No phase issues more than one request. -/
theorem C3_step_wrapping_policy (c : Img2TxtClient) (env : Env)
    (p ot d os : String) (e : String)
    (hfe : env.fileExists = true) (hfi : env.isFile = true)
    (he : (process c env p ot d os).1 = .error e) :
    ((∃ inner, e = "Image processing failed: " ++ inner ∧ StepWrapped12 inner) ∨
      StepWrapped3 e) ∧
    ((process c env p ot d os).2.filter Event.isGet).length ≤ 1 ∧
    ((process c env p ot d os).2.filter Event.isPut).length ≤ 1 ∧
    ((process c env p ot d os).2.filter Event.isPost).length ≤ 1 := by
  obtain ⟨hcounts, _, hshape⟩ := process_invariants c env p ot d os
  exact ⟨hshape hfe hfi e he, hcounts.1, hcounts.2.1, hcounts.2.2⟩

/-- Witness for the amended C3: a transport failure at phase one surfaces
doubly wrapped. -/
theorem C3_step_wrapping_policy_witness :
    (((∃ inner,
        "Image processing failed: Failed to get upload URL: connect ECONNREFUSED" =
          "Image processing failed: " ++ inner ∧ StepWrapped12 inner) ∨
      StepWrapped3
        "Image processing failed: Failed to get upload URL: connect ECONNREFUSED") ∧
      ((process sampleClient ⟨true, true, 2048,
          .transportFailure "connect ECONNREFUSED", .success 200 sampleUfs,
          .success 200 sampleOkBody⟩ "/tmp/plane.png" "raw" "" "").2.filter
        Event.isGet).length ≤ 1 ∧
      ((process sampleClient ⟨true, true, 2048,
          .transportFailure "connect ECONNREFUSED", .success 200 sampleUfs,
          .success 200 sampleOkBody⟩ "/tmp/plane.png" "raw" "" "").2.filter
        Event.isPut).length ≤ 1 ∧
      ((process sampleClient ⟨true, true, 2048,
          .transportFailure "connect ECONNREFUSED", .success 200 sampleUfs,
          .success 200 sampleOkBody⟩ "/tmp/plane.png" "raw" "" "").2.filter
        Event.isPost).length ≤ 1) :=
  C3_step_wrapping_policy sampleClient _ "/tmp/plane.png" "raw" "" "" _ rfl rfl rfl

/-- C3 (counterexample to the claim as stated): an extraction-phase
transport failure is step-wrapped inside `imageToText` but never re-wrapped
by `process` — the surfaced error does not carry the top-level context. -/
theorem C3_extraction_failure_not_rewrapped :
    (process sampleClient ⟨true, true, 2048, .success 200 sampleUploadInfo,
        .success 200 sampleUfs, .transportFailure "socket hang up"⟩
      "/tmp/plane.png" "raw" "" "").1 =
      .error "Failed to process image: socket hang up" ∧
    ¬ ∃ inner, "Failed to process image: socket hang up" =
        "Image processing failed: " ++ inner := by
  constructor
  · rfl
  · rintro ⟨inner, h⟩
    have hd := congrArg String.data h
    simp [String.data_append] at hd

/-- C9: construction fails immediately on an empty, absent, or non-string
credential; a non-empty string credential yields a client holding the
Bearer header, and every request of every later `process` call carries
that header. -/
theorem C9_constructor_contract :
    (∀ v : Option Json, jsTypeofIsString v = false →
      mkClient v = .error "API Key is required and must be a string.") ∧
    (mkClient (some (.str "")) = .error "API Key is required and must be a string.") ∧
    (∀ s : String, s ≠ "" → mkClient (some (.str s)) = .ok ⟨"Bearer " ++ s⟩) ∧
    (∀ s : String, ∀ env : Env, ∀ p ot d os : String,
      ∀ ev ∈ (process ⟨"Bearer " ++ s⟩ env p ot d os).2, ∀ r, ev = .req r →
        ("Authorization", "Bearer " ++ s) ∈ r.headers) := by
  refine ⟨?_, rfl, ?_, ?_⟩
  · intro v hv
    simp [mkClient, hv]
  · intro s hs
    have hsb : (s != "") = true := by simp [hs]
    simp [mkClient, jsTruthy, jsTypeofIsString, jsAsString, hsb]
  · intro s env p ot d os ev hev r hr
    exact (process_invariants ⟨"Bearer " ++ s⟩ env p ot d os).2.1 ev hev r hr

/-- Witness for C9 on concrete credentials: a number, `undefined`, the
empty string, and a normal key. -/
theorem C9_constructor_contract_witness :
    mkClient (some (.num 5 0)) = .error "API Key is required and must be a string." ∧
    mkClient none = .error "API Key is required and must be a string." ∧
    mkClient (some (.str "")) = .error "API Key is required and must be a string." ∧
    mkClient (some (.str "test-key")) = .ok ⟨"Bearer " ++ "test-key"⟩ :=
  ⟨C9_constructor_contract.1 (some (.num 5 0)) rfl,
   C9_constructor_contract.1 none rfl,
   C9_constructor_contract.2.1,
   C9_constructor_contract.2.2.1 "test-key" (by decide)⟩


/-- C2: with valid responses at all three phases, `process` returns the
parsed extraction body unchanged, and the extraction payload carries the
upload phase `ufsUrl` as `imageUrl`, always carries `outputType`, carries
the compact re-serialisation of a valid non-empty `outputStructure`, and
omits `description`/`outputStructure` when those arguments are empty. -/
theorem C2_success_payload_contract (c : Img2TxtClient) (env : Env)
    (p ot d os : String) (st1 st2 st3 : Nat) (d1 d2 body : Json)
    (hfe : env.fileExists = true) (hfi : env.isFile = true)
    (h1 : env.uploadUrlResp = .success st1 d1)
    (hu : jsTruthy (d1.get? "url") = true) (hk : jsTruthy (d1.get? "key") = true)
    (h2 : env.uploadResp = .success st2 d2)
    (hufs : jsTruthy (d2.get? "ufsUrl") = true)
    (h3 : env.extractResp = .success st3 body)
    (hns : isLiteralFalse (body.get? "success") = false)
    (hos : os = "" ∨ ∃ j, jsonParse os = some j) :
    (process c env p ot d os).1 = .ok body ∧
    ∃ payload,
      postEvent c payload ∈ (process c env p ot d os).2 ∧
      payload.lookup "imageUrl" = d2.get? "ufsUrl" ∧
      payload.lookup "outputType" = some (.str ot) ∧
      (d = "" → payload.lookup "description" = none) ∧
      (d ≠ "" → payload.lookup "description" = some (.str d)) ∧
      (os = "" → payload.lookup "outputStructure" = none) ∧
      (∀ j, jsonParse os = some j →
        payload.lookup "outputStructure" = some (.str (jsonStringify j))) := by
  obtain ⟨v, hv⟩ := truthy_some _ hufs
  obtain ⟨payload, hb, hiu, hot, hda, hdb, hoa, hob⟩ :=
    buildPayload_ok ((d2.get? "ufsUrl").getD .null) ot d os hos
  have hG := getUploadUrl_success c env p st1 d1 h1 hu hk
  have hU := uploadFile_success c env ((d1.get? "url").getD .null) p st2 d2 h2 hufs
  have hI := imageToText_success c env ((d2.get? "ufsUrl").getD .null) ot d os
    payload hb st3 body h3 hns
  have hP := process_phase3 c env p ot d os d1 ((d2.get? "ufsUrl").getD .null)
    (.ok body) _ _ _ (by simp [hfe, hfi]) hG hU hI
  rw [hP]
  refine ⟨rfl, payload, ?_, ?_, hot, hda, hdb, hoa, hob⟩
  · simp
  · rw [hiu, hv]
    rfl

/-- Witness for C2 on an all-valid run with an empty description and a
spaced `outputStructure` that is re-serialised compactly. -/
theorem C2_success_payload_contract_witness :
    (process sampleClient sampleEnvAllOk "/tmp/plane.png" "structured" ""
      "\x7b \"a\" : 1 \x7d").1 = .ok sampleOkBody ∧
    ∃ payload,
      postEvent sampleClient payload ∈
        (process sampleClient sampleEnvAllOk "/tmp/plane.png" "structured" ""
          "\x7b \"a\" : 1 \x7d").2 ∧
      payload.lookup "imageUrl" = sampleUfs.get? "ufsUrl" ∧
      payload.lookup "outputType" = some (.str "structured") ∧
      (("" : String) = "" → payload.lookup "description" = none) ∧
      (("" : String) ≠ "" → payload.lookup "description" = some (.str "")) ∧
      (("\x7b \"a\" : 1 \x7d" : String) = "" →
        payload.lookup "outputStructure" = none) ∧
      (∀ j, jsonParse "\x7b \"a\" : 1 \x7d" = some j →
        payload.lookup "outputStructure" = some (.str (jsonStringify j))) :=
  C2_success_payload_contract sampleClient sampleEnvAllOk "/tmp/plane.png"
    "structured" "" "\x7b \"a\" : 1 \x7d" 200 200 200 sampleUploadInfo sampleUfs
    sampleOkBody rfl rfl rfl rfl rfl rfl rfl rfl rfl
    (Or.inr ⟨.obj [("a", .num 1 0)], rfl⟩)

/-- C7: a 2xx extraction response whose body sets `success` to the literal
`false` is treated as a processing failure reporting the returned
diagnostic payload (`data.data || data.text || data`). -/
theorem C7_success_false_failure (c : Img2TxtClient) (env : Env)
    (p ot d os : String) (st1 st2 st3 : Nat) (d1 d2 body : Json)
    (hfe : env.fileExists = true) (hfi : env.isFile = true)
    (h1 : env.uploadUrlResp = .success st1 d1)
    (hu : jsTruthy (d1.get? "url") = true) (hk : jsTruthy (d1.get? "key") = true)
    (h2 : env.uploadResp = .success st2 d2)
    (hufs : jsTruthy (d2.get? "ufsUrl") = true)
    (h3 : env.extractResp = .success st3 body)
    (hlf : body.get? "success" = some (.bool false))
    (hos : os = "" ∨ ∃ j, jsonParse os = some j) :
    (process c env p ot d os).1 =
      .error ("Failed to process image: Processing failed: "
        ++ jsonStringify (diagPayload body)) := by
  obtain ⟨payload, hb, _⟩ := buildPayload_ok ((d2.get? "ufsUrl").getD .null) ot d os hos
  have hG := getUploadUrl_success c env p st1 d1 h1 hu hk
  have hU := uploadFile_success c env ((d1.get? "url").getD .null) p st2 d2 h2 hufs
  have hI := imageToText_success_false c env ((d2.get? "ufsUrl").getD .null) ot d os
    payload hb st3 body h3 (by rw [hlf]; rfl)
  have hP := process_phase3 c env p ot d os d1 ((d2.get? "ufsUrl").getD .null)
    _ _ _ _ (by simp [hfe, hfi]) hG hU hI
  rw [hP]

/-- Witness for C7: a 200 response with `success: false` and a diagnostic
`data` object. -/
theorem C7_success_false_failure_witness :
    (process sampleClient ⟨true, true, 2048, .success 200 sampleUploadInfo,
        .success 200 sampleUfs, .success 200 (.obj [("success", .bool false),
          ("data", .obj [("reason", .str "no credit")])])⟩
      "/tmp/plane.png" "raw" "" "").1 =
      .error ("Failed to process image: Processing failed: "
        ++ jsonStringify (diagPayload (.obj [("success", .bool false),
          ("data", .obj [("reason", .str "no credit")])]))) :=
  C7_success_false_failure sampleClient _ "/tmp/plane.png" "raw" "" "" 200 200 200
    sampleUploadInfo sampleUfs (.obj [("success", .bool false),
      ("data", .obj [("reason", .str "no credit")])])
    rfl rfl rfl rfl rfl rfl rfl rfl rfl (Or.inl rfl)

/-- C10: only the literal boolean `false` in `success` triggers the
application-level failure; any other value (absent, `0`, `null`, a string)
lets `process` return the response as a success. -/
theorem C10_only_literal_false_fails (c : Img2TxtClient) (env : Env)
    (p ot d os : String) (st1 st2 st3 : Nat) (d1 d2 body : Json)
    (hfe : env.fileExists = true) (hfi : env.isFile = true)
    (h1 : env.uploadUrlResp = .success st1 d1)
    (hu : jsTruthy (d1.get? "url") = true) (hk : jsTruthy (d1.get? "key") = true)
    (h2 : env.uploadResp = .success st2 d2)
    (hufs : jsTruthy (d2.get? "ufsUrl") = true)
    (h3 : env.extractResp = .success st3 body)
    (hns : isLiteralFalse (body.get? "success") = false)
    (hos : os = "" ∨ ∃ j, jsonParse os = some j) :
    (process c env p ot d os).1 = .ok body := by
  obtain ⟨payload, hb, _⟩ := buildPayload_ok ((d2.get? "ufsUrl").getD .null) ot d os hos
  have hG := getUploadUrl_success c env p st1 d1 h1 hu hk
  have hU := uploadFile_success c env ((d1.get? "url").getD .null) p st2 d2 h2 hufs
  have hI := imageToText_success c env ((d2.get? "ufsUrl").getD .null) ot d os
    payload hb st3 body h3 hns
  have hP := process_phase3 c env p ot d os d1 ((d2.get? "ufsUrl").getD .null)
    (.ok body) _ _ _ (by simp [hfe, hfi]) hG hU hI
  rw [hP]

/-- Witness for C10: `success: 0` (falsy but not the literal `false`) still
returns the body as success. -/
theorem C10_only_literal_false_fails_witness :
    (process sampleClient ⟨true, true, 2048, .success 200 sampleUploadInfo,
        .success 200 sampleUfs,
        .success 200 (.obj [("success", .num 0 0), ("text", .str "t")])⟩
      "/tmp/plane.png" "raw" "" "").1 =
      .ok (.obj [("success", .num 0 0), ("text", .str "t")]) :=
  C10_only_literal_false_fails sampleClient _ "/tmp/plane.png" "raw" "" "" 200 200 200
    sampleUploadInfo sampleUfs (.obj [("success", .num 0 0), ("text", .str "t")])
    rfl rfl rfl rfl rfl rfl rfl rfl rfl (Or.inl rfl)

/-- C8: the phases run in strict sequence — upload-URL GET, then storage
PUT (to the URL from phase one), then a flat 200 ms sleep, then the
extraction POST (carrying the `ufsUrl` from phase two) — with no retry. -/
theorem C8_sequential_phases (c : Img2TxtClient) (env : Env)
    (p ot d os : String) (st1 st2 : Nat) (d1 d2 : Json)
    (hfe : env.fileExists = true) (hfi : env.isFile = true)
    (h1 : env.uploadUrlResp = .success st1 d1)
    (hu : jsTruthy (d1.get? "url") = true) (hk : jsTruthy (d1.get? "key") = true)
    (h2 : env.uploadResp = .success st2 d2)
    (hufs : jsTruthy (d2.get? "ufsUrl") = true)
    (hos : os = "" ∨ ∃ j, jsonParse os = some j) :
    ∃ payload,
      buildPayload ((d2.get? "ufsUrl").getD .null) ot d os = .ok payload ∧
      (process c env p ot d os).2 =
        [getEvent c env p,
         putEvent c ((d1.get? "url").getD .null) p,
         Event.sleep 200,
         postEvent c payload] ∧
      payload.lookup "imageUrl" = some ((d2.get? "ufsUrl").getD .null) := by
  obtain ⟨payload, hb, hiu, _⟩ :=
    buildPayload_ok ((d2.get? "ufsUrl").getD .null) ot d os hos
  have hG := getUploadUrl_success c env p st1 d1 h1 hu hk
  have hU := uploadFile_success c env ((d1.get? "url").getD .null) p st2 d2 h2 hufs
  have htI := imageToText_trace_ok c env ((d2.get? "ufsUrl").getD .null) ot d os
    payload hb
  rcases hI : imageToText c env ((d2.get? "ufsUrl").getD .null) ot d os with ⟨res3, t4⟩
  have ht4 : t4 = [postEvent c payload] := by rw [hI] at htI; exact htI
  have hP := process_phase3 c env p ot d os d1 ((d2.get? "ufsUrl").getD .null)
    res3 _ _ t4 (by simp [hfe, hfi]) hG hU hI
  refine ⟨payload, hb, ?_, hiu⟩
  rw [hP, ht4]
  rfl

/-- Witness for C8 at a concrete all-valid run. -/
theorem C8_sequential_phases_witness :
    ∃ payload,
      buildPayload ((sampleUfs.get? "ufsUrl").getD .null) "raw" "" "" = .ok payload ∧
      (process sampleClient sampleEnvAllOk "/tmp/plane.png" "raw" "" "").2 =
        [getEvent sampleClient sampleEnvAllOk "/tmp/plane.png",
         putEvent sampleClient ((sampleUploadInfo.get? "url").getD .null) "/tmp/plane.png",
         Event.sleep 200,
         postEvent sampleClient payload] ∧
      payload.lookup "imageUrl" = some ((sampleUfs.get? "ufsUrl").getD .null) :=
  C8_sequential_phases sampleClient sampleEnvAllOk "/tmp/plane.png" "raw" "" ""
    200 200 sampleUploadInfo sampleUfs rfl rfl rfl rfl rfl rfl rfl (Or.inl rfl)

/-- C1 (amended): an invalid `outputStructure` makes `process` fail with
the JSON-parse validation error before the extraction-phase call — no POST
is issued — but after the first two phase requests, which are issued; the
error surfaces unwrapped, the extraction promise being returned without
await. -/
theorem C1_json_error_before_extraction (c : Img2TxtClient) (env : Env)
    (p ot d os : String) (st1 st2 : Nat) (d1 d2 : Json)
    (hfe : env.fileExists = true) (hfi : env.isFile = true)
    (h1 : env.uploadUrlResp = .success st1 d1)
    (hu : jsTruthy (d1.get? "url") = true) (hk : jsTruthy (d1.get? "key") = true)
    (h2 : env.uploadResp = .success st2 d2)
    (hufs : jsTruthy (d2.get? "ufsUrl") = true)
    (hosne : os ≠ "") (hbad : jsonParse os = none) :
    (process c env p ot d os).1 =
      .error ("outputStructure must be valid JSON: " ++ jsonSyntaxErrorMessage) ∧
    (∀ ev ∈ (process c env p ot d os).2, Event.isPost ev = false) ∧
    ((process c env p ot d os).2.filter Event.isRequest).length = 2 := by
  have hosb : (os != "") = true := by simp [hosne]
  have hb : buildPayload ((d2.get? "ufsUrl").getD .null) ot d os =
      .error ("outputStructure must be valid JSON: " ++ jsonSyntaxErrorMessage) := by
    simp [buildPayload, hosb, hbad]
  have hI := imageToText_payload_error c env ((d2.get? "ufsUrl").getD .null)
    ot d os _ hb
  have hG := getUploadUrl_success c env p st1 d1 h1 hu hk
  have hU := uploadFile_success c env ((d1.get? "url").getD .null) p st2 d2 h2 hufs
  have hP := process_phase3 c env p ot d os d1 ((d2.get? "ufsUrl").getD .null)
    _ _ _ _ (by simp [hfe, hfi]) hG hU hI
  rw [hP]
  refine ⟨rfl, ?_, ?_⟩
  · intro ev hev
    simp [getEvent, putEvent] at hev
    rcases hev with hev | hev | hev <;> subst hev <;> rfl
  · simp [getEvent, putEvent, Event.isRequest]

/-- Witness for the amended C1 at a concrete invalid `outputStructure`. -/
theorem C1_json_error_before_extraction_witness :
    (process sampleClient sampleEnvAllOk "/tmp/plane.png" "raw" ""
      "\x7bnot valid json").1 =
      .error ("outputStructure must be valid JSON: " ++ jsonSyntaxErrorMessage) ∧
    (∀ ev ∈ (process sampleClient sampleEnvAllOk "/tmp/plane.png" "raw" ""
      "\x7bnot valid json").2, Event.isPost ev = false) ∧
    ((process sampleClient sampleEnvAllOk "/tmp/plane.png" "raw" ""
      "\x7bnot valid json").2.filter Event.isRequest).length = 2 :=
  C1_json_error_before_extraction sampleClient sampleEnvAllOk "/tmp/plane.png"
    "raw" "" "\x7bnot valid json" 200 200 sampleUploadInfo sampleUfs
    rfl rfl rfl rfl rfl rfl rfl (by decide) rfl

/-- C1 (counterexample to the claim as stated): with an invalid
`outputStructure` and the first two phases answering normally, `process`
does fail with the JSON-parse error, but two network requests have already
been issued — not zero. -/
theorem C1_requests_issued_before_json_error :
    ((process sampleClient sampleEnvAllOk "/tmp/plane.png" "raw" ""
      "\x7bnot valid json").1 =
      .error ("outputStructure must be valid JSON: " ++ jsonSyntaxErrorMessage)) ∧
    ((process sampleClient sampleEnvAllOk "/tmp/plane.png" "raw" ""
      "\x7bnot valid json").2.filter Event.isRequest).length = 2 :=
  ⟨rfl, rfl⟩

end Img2Txt
